import Mathlib

/-!
Verification of the FitCast decision-logic core (src/app.py).

The four helper functions of the app are embedded shallowly:

* `get_mock_weather` — the per-city table lookup plus the midpoint/perturbation
  computation.  The two random draws of the Python code
  (`np.random.randint(-2, 3)` and `np.random.choice(["Low","Medium","High"])`)
  are made explicit parameters `p` and `rain`; theorems restrict them to the
  ranges the random source can actually produce.
* `adjust_for_comfort` — comfort-offset table lookup.
* `generate_outfit` — temperature band selection plus bottoms lookup.
* `shoe_suggestion` — rain-priority shoe choice.

Python dictionary indexing (`base[city]`, `adjustments[comfort]`,
`bottoms[style]`) raises `KeyError(key)` on a missing key, so the three
functions that index a dict are embedded as `Except PyError _`, with
`PyError.keyError` carrying the offending key, exactly as Python's `KeyError`
carries it.  `shoe_suggestion` performs no lookup and is total.
-/

/-- Python exception raised by the source: a dict lookup with a missing key
raises `KeyError(key)`.  The source defines no other error class. -/
inductive PyError where
  | keyError (key : String)
deriving DecidableEq, Repr

/-- The Python exception class name of an error value raised by the source. -/
def PyError.className : PyError → String
  | .keyError _ => "KeyError"

/-- The weather record returned by `get_mock_weather` in src/app.py
(keys "low", "high", "feels_like", "rain_chance"). -/
structure Weather where
  low : Int
  high : Int
  feels_like : Int
  rain_chance : String
deriving DecidableEq, Repr

/-- The `base` dict of `get_mock_weather`: city name to (low, high). -/
def base (city : String) : Option (Int × Int) :=
  if city = "Miami" then some (75, 85)
  else if city = "New York" then some (60, 72)
  else if city = "Chicago" then some (55, 68)
  else if city = "Los Angeles" then some (65, 78)
  else none

/-- `get_mock_weather(city)` of src/app.py.  `p` is the value drawn by
`np.random.randint(-2, 3)` (an integer in [-2, 2]) and `rain` the value drawn
by `np.random.choice(["Low", "Medium", "High"])`.  The Python expression
`int((low + high) / 2 + p)` truncates toward zero; for every table entry and
every `p ≥ -2` the operand is positive, so it equals the floor
`(low + high) / 2 + p`, which is how it is written here (integer division). -/
def get_mock_weather (city : String) (p : Int) (rain : String) :
    Except PyError Weather :=
  match base city with
  | some (low, high) => .ok ⟨low, high, (low + high) / 2 + p, rain⟩
  | none => .error (.keyError city)

/-- The `adjustments` dict of `adjust_for_comfort`. -/
def adjustments (comfort : String) : Option Int :=
  if comfort = "I am a furnace" then some 6
  else if comfort = "I run warm" then some 3
  else if comfort = "I am normal" then some 0
  else if comfort = "I run cold" then some (-3)
  else if comfort = "I am freezing all the time" then some (-6)
  else none

/-- `adjust_for_comfort(feels_like, comfort)` of src/app.py. -/
def adjust_for_comfort (feels_like : Int) (comfort : String) :
    Except PyError Int :=
  match adjustments comfort with
  | some v => .ok (feels_like + v)
  | none => .error (.keyError comfort)

/-- The `bottoms` dict of `generate_outfit`. -/
def bottoms (style : String) : Option String :=
  if style = "Cozy" then some "soft pants or leggings"
  else if style = "Casual" then some "jeans"
  else if style = "Dressy" then some "tailored pants or skirt"
  else if style = "Sporty" then some "athletic bottoms"
  else none

/-- `generate_outfit(adjusted_temp, style)` of src/app.py, returning the
`(top, outer, bottom)` triple. -/
def generate_outfit (adjusted_temp : Int) (style : String) :
    Except PyError (String × String × String) :=
  let to_ :=
    if adjusted_temp ≥ 80 then
      ("light tank or breathable tee", "no jacket needed")
    else if adjusted_temp ≥ 70 then
      ("short-sleeve shirt", "optional light layer")
    else if adjusted_temp ≥ 60 then
      ("long-sleeve top", "light jacket or cardigan")
    else
      ("warm sweater", "jacket or coat")
  match bottoms style with
  | some b => .ok (to_.1, to_.2, b)
  | none => .error (.keyError style)

/-- `shoe_suggestion(adjusted_temp, rain)` of src/app.py. -/
def shoe_suggestion (adjusted_temp : Int) (rain : String) : String :=
  if rain = "High" then "water-resistant shoes"
  else if adjusted_temp ≥ 75 then "sandals or breathable sneakers"
  else if adjusted_temp ≥ 60 then "sneakers or flats"
  else "closed-toe shoes or boots"

/-- C1: for every integer adjustedTemp and every style in the enumeration
(equivalently, every style the `bottoms` table maps to some bottom `b`),
`generate_outfit` selects top and outer by the four ordered temperature bands,
with the boundaries 80, 70, 60 closed on the upper side: an input exactly
equal to a boundary selects the higher band. -/
theorem generate_outfit_bands (t : Int) (s b : String)
    (hs : bottoms s = some b) :
    (80 ≤ t → generate_outfit t s =
      .ok ("light tank or breathable tee", "no jacket needed", b)) ∧
    (70 ≤ t → t < 80 → generate_outfit t s =
      .ok ("short-sleeve shirt", "optional light layer", b)) ∧
    (60 ≤ t → t < 70 → generate_outfit t s =
      .ok ("long-sleeve top", "light jacket or cardigan", b)) ∧
    (t < 60 → generate_outfit t s =
      .ok ("warm sweater", "jacket or coat", b)) := by
  simp only [generate_outfit, hs]
  refine ⟨?_, ?_, ?_, ?_⟩ <;> intros <;> split_ifs <;> first | rfl | omega

/-- Witness for C1 at the closed boundary t = 80 with style Casual: the input
exactly equal to 80 selects the ≥ 80 band. -/
theorem generate_outfit_bands_witness :
    generate_outfit 80 "Casual" =
      .ok ("light tank or breathable tee", "no jacket needed", "jeans") :=
  (generate_outfit_bands 80 "Casual" "jeans" rfl).1 (by decide)

/-- C2: for every integer adjustedTemp and rainChance in {Low, Medium, High},
`shoe_suggestion` applies the priority order: High rain overrides any
temperature band; otherwise the three temperature bands apply, with 75 and 60
closed on the upper side. -/
theorem shoe_suggestion_priority (t : Int) (r : String)
    (hr : r = "Low" ∨ r = "Medium" ∨ r = "High") :
    (r = "High" → shoe_suggestion t r = "water-resistant shoes") ∧
    (r ≠ "High" → 75 ≤ t →
      shoe_suggestion t r = "sandals or breathable sneakers") ∧
    (r ≠ "High" → 60 ≤ t → t < 75 →
      shoe_suggestion t r = "sneakers or flats") ∧
    (r ≠ "High" → t < 60 →
      shoe_suggestion t r = "closed-toe shoes or boots") := by
  simp only [shoe_suggestion]
  refine ⟨?_, ?_, ?_, ?_⟩ <;> intros <;> split_ifs <;>
    first | rfl | contradiction | omega

/-- Witness for C2: at adjustedTemp = 90 (deep in the hottest band) High rain
still yields water-resistant shoes. -/
theorem shoe_suggestion_priority_witness :
    shoe_suggestion 90 "High" = "water-resistant shoes" :=
  (shoe_suggestion_priority 90 "High" (Or.inr (Or.inr rfl))).1 rfl

/-- C6: for every integer feelsLike, `adjust_for_comfort` returns feelsLike
plus the fixed offset of the comfort level: +6, +3, 0, -3, -6 for the five
levels of the enumeration respectively. -/
theorem adjust_for_comfort_offsets (t : Int) :
    adjust_for_comfort t "I am a furnace" = .ok (t + 6) ∧
    adjust_for_comfort t "I run warm" = .ok (t + 3) ∧
    adjust_for_comfort t "I am normal" = .ok (t + 0) ∧
    adjust_for_comfort t "I run cold" = .ok (t + (-3)) ∧
    adjust_for_comfort t "I am freezing all the time" = .ok (t + (-6)) :=
  ⟨rfl, rfl, rfl, rfl, rfl⟩

/-- C7: `adjust_for_comfort` is linear in its temperature argument: shifting
the input temperature by k shifts the (successful) output by k.  This holds
for every comfort string, in particular for the five enumerated levels; on an
unknown level both sides are the same KeyError. -/
theorem adjust_for_comfort_linear (t k : Int) (c : String) :
    adjust_for_comfort (t + k) c = (adjust_for_comfort t c).map (· + k) := by
  cases h : adjustments c <;> simp [adjust_for_comfort, h, Except.map]
  ring

/-- C8: the bottom component returned by `generate_outfit` depends only on
style and never on temperature: any two temperatures give the same bottom for
a fixed style (and the same error when the style is unknown). -/
theorem generate_outfit_bottom_style_only (t1 t2 : Int) (s : String) :
    (generate_outfit t1 s).map (fun r => r.2.2) =
    (generate_outfit t2 s).map (fun r => r.2.2) := by
  cases h : bottoms s <;> simp [generate_outfit, h, Except.map]

/-- C9: end-to-end composition for Chicago (low 55, high 68), comfort level
"I am freezing all the time" (offset -6), perturbation fixed to 0:
feelsLike = 61, adjustedTemp = 55, top = "warm sweater",
outer = "jacket or coat", and with style Casual the bottom is "jeans". -/
theorem end_to_end_chicago_freezing :
    get_mock_weather "Chicago" 0 "Low" = .ok ⟨55, 68, 61, "Low"⟩ ∧
    adjust_for_comfort 61 "I am freezing all the time" = .ok 55 ∧
    generate_outfit 55 "Casual" =
      .ok ("warm sweater", "jacket or coat", "jeans") :=
  ⟨rfl, rfl, rfl⟩

/-- C10: `shoe_suggestion` is total over its rain argument and never raises
(it is a total function in this embedding, mirroring the source, which
performs no dict lookup): every rain value other than "High" falls through to
the temperature-based selection, behaving exactly like "Low" and like
"Medium". -/
theorem shoe_suggestion_total_on_rain (t : Int) (r : String)
    (hr : r ≠ "High") :
    shoe_suggestion t r = shoe_suggestion t "Low" ∧
    shoe_suggestion t r = shoe_suggestion t "Medium" := by
  refine ⟨?_, ?_⟩
  · unfold shoe_suggestion
    rw [if_neg hr, if_neg (show ¬("Low" = "High") by decide)]
  · unfold shoe_suggestion
    rw [if_neg hr, if_neg (show ¬("Medium" = "High") by decide)]

/-- Witness for C10: the out-of-enumeration rain value "Drizzle" is treated
the same as Low and Medium. -/
theorem shoe_suggestion_total_on_rain_witness :
    shoe_suggestion 70 "Drizzle" = shoe_suggestion 70 "Low" ∧
    shoe_suggestion 70 "Drizzle" = shoe_suggestion 70 "Medium" :=
  shoe_suggestion_total_on_rain 70 "Drizzle" (by decide)

/-- Modelled from the spec: the feels-like formula the spec states for
`generateWeather`, namely `feelsLike = round((low+high)/2) + perturbation`,
with `round` rounding the rational midpoint to the nearest integer (Mathlib
`round`, ties upward; for every midpoint of the table, rounding ties to even
gives the same value, so the choice of tie-breaking does not matter here). -/
def spec_feels_like (low high p : Int) : Int :=
  round (((low : ℚ) + high) / 2) + p

/-- Counterexample to C3: for Chicago with perturbation 0 the code computes
feels_like = int((55+68)/2 + 0) = 61, while the formula of the claim,
round((55+68)/2) + 0 = round(61.5) = 62, gives a different value. -/
theorem spec_round_midpoint_mismatch :
    (get_mock_weather "Chicago" 0 "Low").map Weather.feels_like ≠
      Except.ok (spec_feels_like 55 68 0) := by
  have h1 : (get_mock_weather "Chicago" 0 "Low").map Weather.feels_like =
      Except.ok 61 := rfl
  have h2 : spec_feels_like 55 68 0 = 62 := by
    unfold spec_feels_like
    rw [round_eq]
    norm_num
  rw [h1, h2]
  intro h
  exact absurd (Except.ok.inj h) (by decide)

/-- C3 as amended: `get_mock_weather` looks up (low, high) from the fixed
per-city table and returns feelsLike equal to the midpoint (low+high)/2
truncated to an integer (floor, since the operand is positive) plus the
perturbation p drawn from {-2, -1, 0, 1, 2}, with rain_chance the value drawn
from {Low, Medium, High}: Miami gives 80 + p, New York 66 + p, Chicago
61 + p, Los Angeles 71 + p. -/
theorem get_mock_weather_formula (p : Int) (r : String)
    (hp1 : -2 ≤ p) (hp2 : p ≤ 2)
    (hr : r = "Low" ∨ r = "Medium" ∨ r = "High") :
    get_mock_weather "Miami" p r = .ok ⟨75, 85, 80 + p, r⟩ ∧
    get_mock_weather "New York" p r = .ok ⟨60, 72, 66 + p, r⟩ ∧
    get_mock_weather "Chicago" p r = .ok ⟨55, 68, 61 + p, r⟩ ∧
    get_mock_weather "Los Angeles" p r = .ok ⟨65, 78, 71 + p, r⟩ := by
  refine ⟨?_, ?_, ?_, ?_⟩ <;> rfl

/-- Witness for the amended C3 at p = 0, rain = Low. -/
theorem get_mock_weather_formula_witness :
    get_mock_weather "Miami" 0 "Low" = .ok ⟨75, 85, 80 + 0, "Low"⟩ ∧
    get_mock_weather "New York" 0 "Low" = .ok ⟨60, 72, 66 + 0, "Low"⟩ ∧
    get_mock_weather "Chicago" 0 "Low" = .ok ⟨55, 68, 61 + 0, "Low"⟩ ∧
    get_mock_weather "Los Angeles" 0 "Low" = .ok ⟨65, 78, 71 + 0, "Low"⟩ :=
  get_mock_weather_formula 0 "Low" (by decide) (by decide) (Or.inl rfl)

/-- C4: for every city of the table and every outcome of the random source
(perturbation in [-2, 2]), the returned weather has low and high exactly
equal to the table entry, low ≤ high, and feels_like within
[(low+high)/2 - 2, (low+high)/2 + 2] inclusive, the midpoint being rounded
to an integer once (the single int() conversion of the source, i.e. the
floor of the positive midpoint). -/
theorem get_mock_weather_bounds (city : String) (low high p : Int)
    (r : String) (w : Weather) (hb : base city = some (low, high))
    (hp1 : -2 ≤ p) (hp2 : p ≤ 2)
    (hw : get_mock_weather city p r = .ok w) :
    w.low = low ∧ w.high = high ∧ w.low ≤ w.high ∧
    (low + high) / 2 - 2 ≤ w.feels_like ∧
    w.feels_like ≤ (low + high) / 2 + 2 := by
  simp only [get_mock_weather, hb] at hw
  have hw2 := Except.ok.inj hw
  subst hw2
  refine ⟨rfl, rfl, ?_, ?_, ?_⟩
  · show low ≤ high
    unfold base at hb
    split_ifs at hb <;> simp at hb <;> omega
  · show (low + high) / 2 - 2 ≤ (low + high) / 2 + p
    omega
  · show (low + high) / 2 + p ≤ (low + high) / 2 + 2
    omega

/-- Witness for C4 at Miami, perturbation 0, rain Low. -/
theorem get_mock_weather_bounds_witness :
    (⟨75, 85, 80, "Low"⟩ : Weather).low = 75 ∧
    (⟨75, 85, 80, "Low"⟩ : Weather).high = 85 ∧
    (⟨75, 85, 80, "Low"⟩ : Weather).low ≤ (⟨75, 85, 80, "Low"⟩ : Weather).high ∧
    ((75 : Int) + 85) / 2 - 2 ≤ (⟨75, 85, 80, "Low"⟩ : Weather).feels_like ∧
    (⟨75, 85, 80, "Low"⟩ : Weather).feels_like ≤ ((75 : Int) + 85) / 2 + 2 :=
  get_mock_weather_bounds "Miami" 75 85 0 "Low" ⟨75, 85, 80, "Low"⟩ rfl
    (by decide) (by decide) rfl

/-- Counterexample to C5: at concrete out-of-table keys, each of the three
functions fails with the Python built-in KeyError carrying the offending key
(the dict lookup failure), whose exception class name "KeyError" is none of
the named classes UnknownCityError, UnknownComfortLevelError,
UnknownStyleError the claim requires; the source defines no such classes. -/
theorem unknown_key_error_class_mismatch :
    get_mock_weather "Springfield" 0 "Low" =
      .error (.keyError "Springfield") ∧
    adjust_for_comfort 70 "I am lukewarm" =
      .error (.keyError "I am lukewarm") ∧
    generate_outfit 70 "Goth" = .error (.keyError "Goth") ∧
    PyError.className (.keyError "Springfield") = "KeyError" ∧
    "KeyError" ≠ "UnknownCityError" ∧
    "KeyError" ≠ "UnknownComfortLevelError" ∧
    "KeyError" ≠ "UnknownStyleError" := by
  refine ⟨rfl, rfl, rfl, rfl, ?_, ?_, ?_⟩ <;> decide

/-- C5 as amended: when a lookup key falls outside its fixed table, each core
function raises Python's built-in KeyError carrying that key, and nothing
else: `get_mock_weather` for a city outside the four-city table,
`adjust_for_comfort` for a comfort level outside its five-value enumeration,
and `generate_outfit` for a style outside the four-style table. -/
theorem unknown_key_raises_keyerror (city comfort style : String)
    (p t u : Int) (r : String)
    (hc : city ∉ ["Miami", "New York", "Chicago", "Los Angeles"])
    (hk : comfort ∉ ["I am a furnace", "I run warm", "I am normal",
      "I run cold", "I am freezing all the time"])
    (hs : style ∉ ["Cozy", "Casual", "Dressy", "Sporty"]) :
    get_mock_weather city p r = .error (.keyError city) ∧
    adjust_for_comfort t comfort = .error (.keyError comfort) ∧
    generate_outfit u style = .error (.keyError style) := by
  simp only [List.mem_cons, List.mem_singleton, not_or] at hc hk hs
  obtain ⟨c1, c2, c3, c4⟩ := hc
  obtain ⟨k1, k2, k3, k4, k5⟩ := hk
  obtain ⟨s1, s2, s3, s4⟩ := hs
  refine ⟨?_, ?_, ?_⟩
  · simp [get_mock_weather, base, c1, c2, c3, c4]
  · simp [adjust_for_comfort, adjustments, k1, k2, k3, k4, k5]
  · simp [generate_outfit, bottoms, s1, s2, s3, s4]

/-- Witness for the amended C5 at concrete out-of-table keys. -/
theorem unknown_key_raises_keyerror_witness :
    get_mock_weather "Paris" 1 "Low" = .error (.keyError "Paris") ∧
    adjust_for_comfort 70 "I am chilly" = .error (.keyError "I am chilly") ∧
    generate_outfit 70 "Grunge" = .error (.keyError "Grunge") :=
  unknown_key_raises_keyerror "Paris" "I am chilly" "Grunge" 1 70 70 "Low"
    (by decide) (by decide) (by decide)
